import Mathlib

/-!
Verification development for the conversational-agent repository.

Shallow embedding of the retrieval-augmented answer pipeline:
  * `app/retrieval/rag/search/hyde.py`   (HyDESearch.search)
  * `app/retrieval/vector.py`            (VectorRetrieval.retrieve_documents)
  * `app/retrieval/rag/query/engine.py`  (QueryUnderstandingEngine.aforward)
  * `app/retrieval/rag/rag.py`           (RAGService.process_query)
  * `app/services/cache.py`              (RedisChatMessageHistory)
  * `app/services/chat/cache.py`         (ChatCache)
  * `app/api/routes/websocket.py`        (websocket_endpoint, ConnectionManager)

External collaborators (embedding model, SQL corpus, generative model, the
json library, Redis primitives) are modelled as function parameters or as
faithful Lean translations of the primitive they invoke (for example Redis
RPUSH / LPUSH / LRANGE on a per-key list). Similarity scores are modelled
as rationals: only their linear order is observed by the code under study.
-/

set_option linter.unusedVariables false

namespace ConvAgent

/-! ## Data model (`app/models/rag.py`, `app/models/chat.py`) -/

/-- One row of the SQL result set produced by the vector-similarity query in
`hyde.py` / `vector.py`: `SELECT content, source_file, page_num, 1 - (embedding <=> q) as similarity`. -/
structure DocumentRow where
  content : String
  source_file : String
  page_num : Int
  similarity : Rat
deriving DecidableEq, Repr

/-- `RetrievedDocument` from `app/models/rag.py`. -/
structure RetrievedDocument where
  content : String
  source : String
  page : Int
  similarity : Rat
deriving DecidableEq, Repr

/-- `RAGResult` from `app/models/rag.py`, the return value of `process_query`. -/
structure RAGResult where
  answer : String
  retrieved_docs : List RetrievedDocument
  search_query : String
deriving DecidableEq, Repr

/-- Message role, from `app/models/chat.py` (`Literal["user", "assistant", "system"]`). -/
inductive Role where
  | user
  | assistant
  | system
deriving DecidableEq, Repr

/-- `ChatMessage` from `app/models/chat.py`. Timestamps are modelled as naturals;
`retrieved_context` holds the retrieval-result snapshots attached by the websocket
route. The pydantic JSON round-trip (`model_dump_json` / `model_validate`) used by
the Redis stores is the serialisation collaborator's contract, so the stored log is
modelled at message granularity. -/
structure ChatMessage where
  id : String
  role : Role
  content : String
  created_at : Nat
  retrieved_context : Option (List RetrievedDocument)
deriving DecidableEq, Repr

/-- A failure raised by an external collaborator (embedding model, SQL corpus,
generative model); carries the exception text. -/
inductive CollabError where
  | failure (msg : String)
deriving DecidableEq, Repr

/-! ## Vector retrieval (`app/retrieval/rag/search/hyde.py`, `app/retrieval/vector.py`) -/

/-- Row-to-document projection: the dict literal built inside the list
comprehension of `HyDESearch.search` / `VectorRetrieval.retrieve_documents`
(`content`/`source`/`page`/`similarity` from `content`/`source_file`/`page_num`/`similarity`). -/
def rowToDoc (r : DocumentRow) : RetrievedDocument :=
  ⟨r.content, r.source_file, r.page_num, r.similarity⟩

/-- The shared post-processing of both retrieval functions: the list
comprehension keeps rows with `row["similarity"] > similarity_threshold`,
builds the document dicts, and `[:k]` truncates to `k`. -/
def filterAndLimit (results : List DocumentRow) (k : Nat) (threshold : Rat) :
    List RetrievedDocument :=
  ((results.filter (fun r => threshold < r.similarity)).map rowToDoc).take k

namespace HyDESearch

/-- `HyDESearch.search` from `hyde.py`. `embed` models `self.embedding.encode`;
`execute` models `self.database.execute_query` applied to the similarity SQL,
as a function of the query embedding and of the `LIMIT` argument (the code
passes `k * 2`). The whole body is wrapped in `try/except` and the `except`
branch returns the empty list, so a collaborator failure never escapes. -/
def search (embed : String → Except CollabError (List Rat))
    (execute : List Rat → Nat → Except CollabError (List DocumentRow))
    (query : String) (k : Nat) (threshold : Rat) : List RetrievedDocument :=
  match embed query with
  | Except.error _ => []
  | Except.ok query_embedding =>
    match execute query_embedding (k * 2) with
    | Except.error _ => []
    | Except.ok results => filterAndLimit results k threshold

end HyDESearch

namespace VectorRetrieval

/-- `VectorRetrieval.retrieve_documents` from `vector.py`: same SQL and
post-processing as `HyDESearch.search`, but the embedding is passed in by the
caller and there is no `try/except`. `execute` models
`self.database.execute_query` as a function of the `LIMIT` argument. -/
def retrieve_documents (execute : Nat → List DocumentRow)
    (k : Nat) (threshold : Rat) : List RetrievedDocument :=
  filterAndLimit (execute (k * 2)) k threshold

end VectorRetrieval

/-! ## Query understanding (`app/retrieval/rag/query/engine.py`) -/

/-- Python `if not chat_history.strip():` — true exactly when every character
of the string is whitespace (so in particular for the empty string). -/
def isBlank (s : String) : Bool := s.data.all (fun c => c.isWhitespace)

namespace QueryUnderstandingEngine

/-- The f-string built at the end of `aforward`:
`question | Relevant concepts: keywords | Potential answer context: hypothetical_answer`. -/
def synthesizedQuery (question keywords hypothetical_answer : String) : String :=
  question ++ " | Relevant concepts: " ++ keywords ++
    " | Potential answer context: " ++ hypothetical_answer

/-- `QueryUnderstandingEngine.aforward`, success path. `kw` models
`self.extract_keywords.acall`, `hyde` models `self.generate_hyde.acall`; both
are called with the same `(question, chat_history)` pair via `asyncio.gather`. -/
def aforward (kw hyde : String → String → String)
    (question chat_history : String) : String :=
  if isBlank chat_history then question
  else synthesizedQuery question (kw question chat_history) (hyde question chat_history)

/-- `aforward` instrumented with call logs: alongside the returned string it
records the argument pairs passed to `extract_keywords.acall` and to
`generate_hyde.acall`. The first branch performs no sub-calls; the second
performs exactly one call to each, both with `(question, chat_history)`. -/
def aforwardCalls (kw hyde : String → String → String)
    (question chat_history : String) :
    String × List (String × String) × List (String × String) :=
  if isBlank chat_history then (question, [], [])
  else (synthesizedQuery question (kw question chat_history) (hyde question chat_history),
    [(question, chat_history)], [(question, chat_history)])

/-- `aforward` with fallible sub-tasks: `asyncio.gather` without
`return_exceptions` re-raises when either coroutine raises, so the joined
operation fails whenever either sub-task fails and only produces a value when
both completed. -/
def aforwardE (kw hyde : String → String → Except CollabError String)
    (question chat_history : String) : Except CollabError String :=
  if isBlank chat_history then Except.ok question
  else
    match kw question chat_history, hyde question chat_history with
    | Except.error e, _ => Except.error e
    | Except.ok _, Except.error e => Except.error e
    | Except.ok keywords, Except.ok hypothetical_answer =>
      Except.ok (synthesizedQuery question keywords hypothetical_answer)

end QueryUnderstandingEngine

/-! ## RAG orchestration (`app/retrieval/rag/rag.py`) -/

/-- The apostrophe character, built explicitly to keep source strings exact. -/
def apos : String := String.singleton (Char.ofNat 39)

/-- The fixed fallback answer returned by `process_query` when retrieval is empty. -/
def fallbackAnswer : String :=
  "I couldn" ++ apos ++ "t find any information about that in my knowledge base. " ++
    "Could you try asking in a different way?"

/-- The context-passage format built in `process_query`:
`[Source: {source}, Page: {page}]\n{content}`. -/
def formatPassage (d : RetrievedDocument) : String :=
  "[Source: " ++ d.source ++ ", Page: " ++ toString d.page ++ "]\n" ++ d.content

namespace RAGService

/-- `RAGService.process_query`. `resolve` models `self.query_engine.aforward`
(it may raise), `searchFn` models `self.search_strategy.search` (total: the
`try/except` inside `HyDESearch.search` means it never raises), `generate`
models `self.generate_answer.acall` (it may raise). The second component of
the result counts the calls made to the answer generator on the run. -/
def process_query (resolve : String → String → Except CollabError String)
    (searchFn : String → Nat → List RetrievedDocument)
    (generate : List String → String → String → Except CollabError String)
    (k : Nat) (question chat_history : String) :
    Except CollabError (RAGResult × Nat) :=
  match resolve question chat_history with
  | Except.error e => Except.error e
  | Except.ok search_query =>
    let retrieved_docs := searchFn search_query k
    if retrieved_docs.isEmpty then
      Except.ok (⟨fallbackAnswer, [], search_query⟩, 0)
    else
      match generate (retrieved_docs.map formatPassage) question chat_history with
      | Except.error e => Except.error e
      | Except.ok answer => Except.ok (⟨answer, retrieved_docs, search_query⟩, 1)

end RAGService

/-! ## Session stores (`app/services/cache.py`, `app/services/chat/cache.py`) -/

/-- The Redis value at one `chat_history:{session_id}` key: the stored list of
messages plus the pending expiry (seconds) last set by `EXPIRE`. -/
structure SessionState where
  log : List ChatMessage
  expiry : Option Nat
deriving DecidableEq, Repr

/-- A session key with no value yet (new session, or after expiry / `DELETE`). -/
def emptySession : SessionState := ⟨[], none⟩

/-- Redis `LRANGE key (-limit) (-1)` on a list of length `n`: the start index
`-limit` resolves to `n - limit`, clamped to `0`; the stop index `-1` is the
last element; so for `limit ≥ 1` this is the final `min limit n` elements in
list order, and for `limit = 0` the start index is `0` and the whole list is
returned. -/
def lrangeLast (l : List α) (limit : Nat) : List α :=
  if limit = 0 then l else l.drop (l.length - limit)

namespace RedisChatMessageHistory

/-- `RedisChatMessageHistory.add_message` (`app/services/cache.py`):
`RPUSH` of the serialised message followed by `EXPIRE key ttl`. -/
def add_message (ttl : Nat) (st : SessionState) (m : ChatMessage) : SessionState :=
  ⟨st.log ++ [m], some ttl⟩

/-- `RedisChatMessageHistory.get_messages`: `LRANGE key (-limit) (-1)` and
deserialisation. `LRANGE` is a pure read, so the state is returned unchanged. -/
def get_messages (st : SessionState) (limit : Nat) :
    List ChatMessage × SessionState :=
  (lrangeLast st.log limit, st)

/-- `RedisChatMessageHistory.clear`: `DELETE key`. -/
def clear (st : SessionState) : SessionState := emptySession

/-- The session state after appending the messages `ms` in order to `st`. -/
def appendAll (ttl : Nat) (st : SessionState) (ms : List ChatMessage) : SessionState :=
  ms.foldl (add_message ttl) st

end RedisChatMessageHistory

namespace ChatCache

/-- `ChatCache.add_message` (`app/services/chat/cache.py`): `LPUSH` of the
serialised message followed by `EXPIRE key ttl` — new messages go to the head. -/
def add_message (ttl : Nat) (st : SessionState) (m : ChatMessage) : SessionState :=
  ⟨m :: st.log, some ttl⟩

/-- `ChatCache.get_messages`: identical to the other store, `LRANGE key (-limit) (-1)`. -/
def get_messages (st : SessionState) (limit : Nat) :
    List ChatMessage × SessionState :=
  (lrangeLast st.log limit, st)

/-- The session state after adding the messages `ms` in order to `st` via `LPUSH`. -/
def addAll (ttl : Nat) (st : SessionState) (ms : List ChatMessage) : SessionState :=
  ms.foldl (add_message ttl) st

end ChatCache

/-! ## Streaming protocol (`app/api/routes/websocket.py`, `app/models/chat.py`) -/

/-- `WSMessage.type` (`Literal["start", "token", "step", "end", "error"]`);
the source literal `end` is spelt `end_` here. -/
inductive WSType where
  | start
  | token
  | step
  | end_
  | error
deriving DecidableEq, Repr

/-- `WSMessage` from `app/models/chat.py`. -/
structure WSMessage where
  type : WSType
  content : String
  step_name : Option String
  session_id : Option String
deriving DecidableEq, Repr

/-- Python `str.split()` with no separator: split on runs of whitespace,
discarding empty pieces. Structural recursion over the character list with an
accumulator for the word being read. -/
def splitWordsAux : List Char → List Char → List String
  | [], acc => if acc.isEmpty then [] else [String.mk acc.reverse]
  | c :: cs, acc =>
    if c.isWhitespace then
      if acc.isEmpty then splitWordsAux cs []
      else String.mk acc.reverse :: splitWordsAux cs []
    else splitWordsAux cs (c :: acc)

/-- `result.answer.split()` from the websocket route. -/
def splitWords (s : String) : List String := splitWordsAux s.data []

/-- The `token` events of the websocket route: one per word of the answer,
the first bare and every later one prefixed with a single space
(`token = word if i == 0 else f" {word}"`). -/
def tokenMessages (answer : String) : List WSMessage :=
  (splitWords answer).mapIdx (fun i w => ⟨WSType.token, if i = 0 then w else " " ++ w, none, none⟩)

/-- The `start` frame sent on receiving a non-empty user message. -/
def startMsg (sid : String) : WSMessage := ⟨WSType.start, "Processing...", none, some sid⟩

/-- A `step` progress frame. -/
def stepMsg (content step_name : String) : WSMessage :=
  ⟨WSType.step, content, some step_name, none⟩

/-- The `end` frame; its content is the JSON dump of the retrieved documents
and the search query, modelled as an opaque payload string. -/
def endMsg (sid payload : String) : WSMessage := ⟨WSType.end_, payload, none, some sid⟩

/-- The content of the `error` frame:
`f"An error occurred while processing your request: {str(e)}"`. -/
def errorEventContent (e : String) : String :=
  "An error occurred while processing your request: " ++ e

/-- The `error` frame sent when processing a message raises, where `e` is the
text of the internal exception. -/
def errorMsg (e : String) : WSMessage := ⟨WSType.error, errorEventContent e, none, none⟩

/-- The exact frame sequence the websocket route emits on one successfully
processed user message: `start`, the three `step` frames
(query understanding, `Retrieved N documents`, generation), one `token` per
word of the final answer, then the `end` frame. -/
def successTrace (sid answer : String) (docCount : Nat) (endPayload : String) :
    List WSMessage :=
  startMsg sid
    :: stepMsg "Understanding your question..." "query_understanding"
    :: stepMsg ("Retrieved " ++ toString docCount ++ " documents") "retrieval"
    :: stepMsg "Generating answer..." "generation"
    :: (tokenMessages answer ++ [endMsg sid endPayload])

/-- Outcome of `json.loads(data)` followed by `message_data.get("message", "")`
on one inbound frame. The json library is the external collaborator; what the
route observes is: the parse raised (`malformed`), the parse succeeded but the
value is not an object so `.get` raises (`nonObject`), or an object whose
`message` field (defaulting to the empty string) is `msg`. -/
inductive InboundParse where
  | malformed
  | nonObject
  | message (msg : String)
deriving DecidableEq, Repr

/-- What one iteration of the receive loop does with one inbound frame. -/
inductive LoopStep where
  | skipped
  | processed (msg : String)
  | terminated
deriving DecidableEq, Repr

/-- Per-frame control flow of the receive loop in `websocket_endpoint`: an
exception from `json.loads` or `.get` propagates to the outer
`except Exception` handler, which deregisters the connection and ends the
handler (`terminated`); an empty or missing `message` hits
`if not user_message: continue` (`skipped`); otherwise the message is
processed. -/
def handleFrame : InboundParse → LoopStep
  | InboundParse.malformed => LoopStep.terminated
  | InboundParse.nonObject => LoopStep.terminated
  | InboundParse.message m => if m = "" then LoopStep.skipped else LoopStep.processed m

/-- Result of running the receive loop over a sequence of inbound frames:
the user messages that reached processing, in order, and whether the channel
is still registered in the connection manager afterwards. -/
structure LoopResult where
  processedMsgs : List String
  registered : Bool
deriving DecidableEq, Repr

/-- The receive loop of `websocket_endpoint` over a finite frame sequence:
frames are handled in order; a `terminated` step deregisters the channel and
stops (later frames are never read); otherwise the loop continues. -/
def runLoop : List InboundParse → LoopResult
  | [] => ⟨[], true⟩
  | f :: fs =>
    match handleFrame f with
    | LoopStep.terminated => ⟨[], false⟩
    | LoopStep.skipped => runLoop fs
    | LoopStep.processed m =>
      let r := runLoop fs
      ⟨m :: r.processedMsgs, r.registered⟩

/-! ## Concrete collaborator instances used to evaluate the theorems -/

/-- A sample embedding client that succeeds with a fixed vector. -/
def embedW : String → Except CollabError (List Rat) := fun _ => Except.ok [1]

/-- A sample two-row result set, ranked by descending similarity (scores are
scaled to integers; only their order matters to the code under study). -/
def rowsW : List DocumentRow := [⟨"a", "f.pdf", 1, 9⟩, ⟨"b", "f.pdf", 2, 5⟩]

/-- A sample corpus returning `rowsW` for every request. -/
def executeW : List Rat → Nat → Except CollabError (List DocumentRow) :=
  fun _ _ => Except.ok rowsW

/-- A sample collaborator failure. -/
def errW : CollabError := CollabError.failure "connection refused"

/-- A keyword sub-task that fails with `errW`. -/
def kwErrW : String → String → Except CollabError String := fun _ _ => Except.error errW

/-- A keyword sub-task that succeeds. -/
def kwOkW : String → String → Except CollabError String := fun _ _ => Except.ok "K"

/-- A hypothetical-answer sub-task that fails with `errW`. -/
def hydeErrW : String → String → Except CollabError String := fun _ _ => Except.error errW

/-- A hypothetical-answer sub-task that succeeds. -/
def hydeOkW : String → String → Except CollabError String := fun _ _ => Except.ok "H"

/-- An embedding client that fails with `errW`. -/
def embedErrW : String → Except CollabError (List Rat) := fun _ => Except.error errW

/-- A corpus that fails with `errW`. -/
def executeErrW : List Rat → Nat → Except CollabError (List DocumentRow) :=
  fun _ _ => Except.error errW

/-- Sample chat messages. -/
def m1W : ChatMessage := ⟨"id1", Role.user, "first", 0, none⟩

/-- Second sample chat message. -/
def m2W : ChatMessage := ⟨"id2", Role.assistant, "second", 1, none⟩

/-- Third sample chat message. -/
def m3W : ChatMessage := ⟨"id3", Role.user, "third", 2, none⟩

/-! ## Helper lemmas -/

/-- The retrieval post-processing returns at most `k` documents. -/
theorem filterAndLimit_length_le (results : List DocumentRow) (k : Nat) (threshold : Rat) :
    (filterAndLimit results k threshold).length ≤ k :=
  List.length_take_le k _

/-- Every document surviving the retrieval post-processing has similarity
strictly above the threshold. -/
theorem filterAndLimit_sim_gt (results : List DocumentRow) (k : Nat) (threshold : Rat)
    (d : RetrievedDocument) (hd : d ∈ filterAndLimit results k threshold) :
    threshold < d.similarity := by
  unfold filterAndLimit at hd
  have hmap := List.mem_of_mem_take hd
  rcases List.mem_map.mp hmap with ⟨r, hr, hrd⟩
  rcases List.mem_filter.mp hr with ⟨_, hsim⟩
  have : threshold < r.similarity := of_decide_eq_true hsim
  rw [← hrd]
  exact this

/-- The retrieval post-processing preserves descending-similarity order. -/
theorem filterAndLimit_sorted (results : List DocumentRow) (k : Nat) (threshold : Rat)
    (h : results.Pairwise (fun a b => b.similarity ≤ a.similarity)) :
    (filterAndLimit results k threshold).Pairwise
      (fun a b => b.similarity ≤ a.similarity) := by
  unfold filterAndLimit
  refine List.Pairwise.sublist (List.take_sublist _ _) ?_
  rw [List.pairwise_map]
  exact (h.filter _).imp (fun hab => hab)

/-- Appending messages one by one extends the stored log at its tail. -/
theorem appendAll_log (ttl : Nat) (st : SessionState) (ms : List ChatMessage) :
    (RedisChatMessageHistory.appendAll ttl st ms).log = st.log ++ ms := by
  induction ms generalizing st with
  | nil => simp [RedisChatMessageHistory.appendAll]
  | cons m ms ih =>
    simp only [RedisChatMessageHistory.appendAll, List.foldl_cons] at ih ⊢
    rw [ih]
    simp [RedisChatMessageHistory.add_message]

/-- Adding messages one by one via `LPUSH` builds the reversed log at the head. -/
theorem addAll_log (ttl : Nat) (st : SessionState) (ms : List ChatMessage) :
    (ChatCache.addAll ttl st ms).log = ms.reverse ++ st.log := by
  induction ms generalizing st with
  | nil => simp [ChatCache.addAll]
  | cons m ms ih =>
    simp only [ChatCache.addAll, List.foldl_cons] at ih ⊢
    rw [ih (ChatCache.add_message ttl st m)]
    simp [ChatCache.add_message]

/-! ## Claims -/

/-- Claim C1: the retriever requests the top `2·k` ranked candidates, keeps
only candidates with similarity strictly above the threshold, and returns the
first `k` survivors; so the result is determined by the `2·k`-candidate
result set, has at most `k` documents, every returned document has
similarity above the threshold, and — when the corpus returns candidates in
similarity-descending rank order — the result is sorted by descending
similarity. -/
theorem search_overfetch_filter_truncate
    (embed : String → Except CollabError (List Rat))
    (execute : List Rat → Nat → Except CollabError (List DocumentRow))
    (query : String) (k : Nat) (threshold : Rat)
    (emb : List Rat) (rows : List DocumentRow)
    (hk : 0 < k)
    (hemb : embed query = Except.ok emb)
    (hrows : execute emb (2 * k) = Except.ok rows)
    (hsorted : rows.Pairwise (fun a b => b.similarity ≤ a.similarity)) :
    HyDESearch.search embed execute query k threshold = filterAndLimit rows k threshold
    ∧ (HyDESearch.search embed execute query k threshold).length ≤ k
    ∧ (∀ d ∈ HyDESearch.search embed execute query k threshold, threshold < d.similarity)
    ∧ (HyDESearch.search embed execute query k threshold).Pairwise
        (fun a b => b.similarity ≤ a.similarity) := by
  have hs : HyDESearch.search embed execute query k threshold
      = filterAndLimit rows k threshold := by
    unfold HyDESearch.search
    rw [hemb, Nat.mul_comm k 2]
    simp [hrows]
  refine ⟨hs, ?_, ?_, ?_⟩
  · rw [hs]; exact filterAndLimit_length_le rows k threshold
  · rw [hs]; exact fun d hd => filterAndLimit_sim_gt rows k threshold d hd
  · rw [hs]; exact filterAndLimit_sorted rows k threshold hsorted

/-- Witness for C1 at a concrete corpus: `k = 1`, threshold `3/10`, two
candidates with similarities `9/10` and `1/2`. -/
theorem search_overfetch_filter_truncate_witness :
    HyDESearch.search embedW executeW "q" 1 3 = filterAndLimit rowsW 1 3
    ∧ (HyDESearch.search embedW executeW "q" 1 3).length ≤ 1
    ∧ (∀ d ∈ HyDESearch.search embedW executeW "q" 1 3, (3 : Rat) < d.similarity)
    ∧ (HyDESearch.search embedW executeW "q" 1 3).Pairwise
        (fun a b => b.similarity ≤ a.similarity) :=
  search_overfetch_filter_truncate embedW executeW "q" 1 3 [1] rowsW
    (by decide) rfl rfl (by decide)

/-- Claim C2: when retrieval yields no documents, `process_query` returns the
fixed fallback answer with an empty document list and the computed search
query, invokes the answer generator zero times, and this is a normal
(`Except.ok`) return. -/
theorem process_query_empty_fallback
    (resolve : String → String → Except CollabError String)
    (searchFn : String → Nat → List RetrievedDocument)
    (generate : List String → String → String → Except CollabError String)
    (k : Nat) (question chat_history search_query : String)
    (hres : resolve question chat_history = Except.ok search_query)
    (hempty : searchFn search_query k = []) :
    RAGService.process_query resolve searchFn generate k question chat_history
      = Except.ok (⟨fallbackAnswer, [], search_query⟩, 0) := by
  unfold RAGService.process_query
  rw [hres]
  simp [hempty]

/-- Witness for C2: a resolver returning the raw question and a retrieval
stage returning no documents. -/
theorem process_query_empty_fallback_witness :
    RAGService.process_query (fun q _ => Except.ok q) (fun _ _ => [])
        (fun _ _ _ => Except.ok "generated") 3 "who?" "history"
      = Except.ok (⟨fallbackAnswer, [], "who?"⟩, 0) :=
  process_query_empty_fallback (fun q _ => Except.ok q) (fun _ _ => [])
    (fun _ _ _ => Except.ok "generated") 3 "who?" "history" "who?" rfl rfl

/-- Claim C3: after appending `ms` in order, `get_messages` with a positive
`limit` returns the most recent `min limit ms.length` messages — the final
segment of `ms`, in append order — never more than `limit` items, and leaves
the session state (log and expiry) unchanged. -/
theorem get_messages_recent_in_order (ms : List ChatMessage) (limit ttl : Nat)
    (hpos : 0 < limit) :
    (RedisChatMessageHistory.get_messages
        (RedisChatMessageHistory.appendAll ttl emptySession ms) limit).1
      = ms.drop (ms.length - limit)
    ∧ (RedisChatMessageHistory.get_messages
        (RedisChatMessageHistory.appendAll ttl emptySession ms) limit).1.length
      = min limit ms.length
    ∧ (RedisChatMessageHistory.get_messages
        (RedisChatMessageHistory.appendAll ttl emptySession ms) limit).1.length ≤ limit
    ∧ (RedisChatMessageHistory.get_messages
        (RedisChatMessageHistory.appendAll ttl emptySession ms) limit).1 <:+ ms
    ∧ (RedisChatMessageHistory.get_messages
        (RedisChatMessageHistory.appendAll ttl emptySession ms) limit).2
      = RedisChatMessageHistory.appendAll ttl emptySession ms := by
  have hlog : (RedisChatMessageHistory.appendAll ttl emptySession ms).log = ms := by
    rw [appendAll_log]
    simp [emptySession]
  have hget : (RedisChatMessageHistory.get_messages
      (RedisChatMessageHistory.appendAll ttl emptySession ms) limit).1
      = ms.drop (ms.length - limit) := by
    unfold RedisChatMessageHistory.get_messages lrangeLast
    rw [hlog, if_neg (Nat.pos_iff_ne_zero.mp hpos)]
  refine ⟨hget, ?_, ?_, ?_, rfl⟩
  · rw [hget, List.length_drop]
    omega
  · rw [hget, List.length_drop]
    omega
  · rw [hget]
    exact List.drop_suffix _ _

/-- Witness for C3: three appended messages read back with `limit = 2` give
the two most recent in order. -/
theorem get_messages_recent_in_order_witness :
    (RedisChatMessageHistory.get_messages
        (RedisChatMessageHistory.appendAll 3600 emptySession [m1W, m2W, m3W]) 2).1
      = [m1W, m2W, m3W].drop ([m1W, m2W, m3W].length - 2)
    ∧ (RedisChatMessageHistory.get_messages
        (RedisChatMessageHistory.appendAll 3600 emptySession [m1W, m2W, m3W]) 2).1.length
      = min 2 [m1W, m2W, m3W].length
    ∧ (RedisChatMessageHistory.get_messages
        (RedisChatMessageHistory.appendAll 3600 emptySession [m1W, m2W, m3W]) 2).1.length ≤ 2
    ∧ (RedisChatMessageHistory.get_messages
        (RedisChatMessageHistory.appendAll 3600 emptySession [m1W, m2W, m3W]) 2).1
      <:+ [m1W, m2W, m3W]
    ∧ (RedisChatMessageHistory.get_messages
        (RedisChatMessageHistory.appendAll 3600 emptySession [m1W, m2W, m3W]) 2).2
      = RedisChatMessageHistory.appendAll 3600 emptySession [m1W, m2W, m3W] :=
  get_messages_recent_in_order [m1W, m2W, m3W] 2 3600 (by decide)

/-- Claim C4, counterexample: the chat history `" "` is non-empty, yet the
engine takes the first-turn branch (`if not chat_history.strip()`), performs
no sub-calls and returns the question unchanged rather than the synthesized
concatenation. -/
theorem aforward_whitespace_history_counterexample :
    " " ≠ ""
    ∧ QueryUnderstandingEngine.aforwardCalls (fun _ _ => "K") (fun _ _ => "H") "q" " "
      = ("q", [], [])
    ∧ QueryUnderstandingEngine.aforwardCalls (fun _ _ => "K") (fun _ _ => "H") "q" " "
      ≠ (QueryUnderstandingEngine.synthesizedQuery "q" "K" "H", [("q", " ")], [("q", " ")]) := by
  refine ⟨by decide, by decide, by decide⟩

/-- Claim C4, amended: for every chat history whose whitespace-stripped form
is non-empty, the engine invokes both the keyword-extraction and the
hypothetical-answer sub-tasks exactly once, each with the identical input
pair `(question, chat_history)`, and returns exactly
`question ++ " | Relevant concepts: " ++ keywords ++ " | Potential answer context: " ++ hypothetical_answer`. -/
theorem aforward_join_and_concat (kw hyde : String → String → String)
    (question chat_history : String)
    (hne : isBlank chat_history = false) :
    QueryUnderstandingEngine.aforwardCalls kw hyde question chat_history
      = (question ++ " | Relevant concepts: " ++ kw question chat_history ++
          " | Potential answer context: " ++ hyde question chat_history,
         [(question, chat_history)], [(question, chat_history)]) := by
  simp [QueryUnderstandingEngine.aforwardCalls, hne,
    QueryUnderstandingEngine.synthesizedQuery]

/-- Witness for the amended C4 at the concrete input `("q", "h")`. -/
theorem aforward_join_and_concat_witness :
    QueryUnderstandingEngine.aforwardCalls (fun _ _ => "K") (fun _ _ => "H") "q" "h"
      = ("q" ++ " | Relevant concepts: " ++ "K" ++ " | Potential answer context: " ++ "H",
         [("q", "h")], [("q", "h")]) :=
  aforward_join_and_concat (fun _ _ => "K") (fun _ _ => "H") "q" "h" (by decide)

/-- Claim C8: resolving a question against the empty chat history returns the
question unchanged and performs no generative sub-calls. -/
theorem aforward_empty_history_direct (kw hyde : String → String → String)
    (question : String) :
    QueryUnderstandingEngine.aforwardCalls kw hyde question "" = (question, [], []) :=
  rfl

/-- Claim C5, counterexample: a successfully processed message whose final
answer contains no whitespace-delimited word (the empty answer) emits zero
`token` events, not one or more. -/
theorem successTrace_empty_answer_counterexample :
    ¬ (1 ≤ (successTrace "s1" "" 0 "payload").countP
        (fun m => m.type == WSType.token)) := by
  decide

/-- Claim C5, amended: the frame sequence for one successfully processed
message is exactly one `start` frame, then `step` frames, then one `token`
frame per whitespace-delimited word of the final answer (zero when the answer
has no words), then exactly one `end` frame; the first frame is the `start`
frame and the last is the `end` frame, so no `token` follows `end` and no
`end` occurs without a preceding `start`. -/
theorem successTrace_shape (sid answer : String) (docCount : Nat) (payload : String) :
    (∃ steps tokens : List WSMessage,
      successTrace sid answer docCount payload
        = startMsg sid :: (steps ++ (tokens ++ [endMsg sid payload]))
      ∧ (∀ m ∈ steps, m.type = WSType.step)
      ∧ (∀ m ∈ tokens, m.type = WSType.token)
      ∧ tokens.length = (splitWords answer).length)
    ∧ (successTrace sid answer docCount payload).countP
        (fun m => m.type == WSType.start) = 1
    ∧ (successTrace sid answer docCount payload).countP
        (fun m => m.type == WSType.end_) = 1
    ∧ (successTrace sid answer docCount payload).countP
        (fun m => m.type == WSType.token) = (splitWords answer).length
    ∧ (successTrace sid answer docCount payload).head? = some (startMsg sid)
    ∧ (successTrace sid answer docCount payload).getLast? = some (endMsg sid payload) := by
  have htok : ∀ m ∈ tokenMessages answer, m.type = WSType.token := by
    intro m hm
    rw [tokenMessages, List.mapIdx_eq_enum_map] at hm
    rcases List.mem_map.mp hm with ⟨⟨i, w⟩, _, hrfl⟩
    rw [← hrfl]
    rfl
  have hlen : (tokenMessages answer).length = (splitWords answer).length := by
    rw [tokenMessages, List.length_mapIdx]
  refine ⟨⟨[stepMsg "Understanding your question..." "query_understanding",
      stepMsg ("Retrieved " ++ toString docCount ++ " documents") "retrieval",
      stepMsg "Generating answer..." "generation"], tokenMessages answer,
      ?_, ?_, htok, hlen⟩, ?_, ?_, ?_, rfl, ?_⟩
  · simp [successTrace]
  · intro m hm
    simp only [List.mem_cons, List.not_mem_nil, or_false] at hm
    rcases hm with h | h | h <;> subst h <;> rfl
  · have h0 : (tokenMessages answer).countP (fun m => m.type == WSType.start) = 0 :=
      List.countP_eq_zero.mpr (fun m hm => by simp [htok m hm])
    simp [successTrace, List.countP_cons, List.countP_append, h0, startMsg, stepMsg, endMsg]
  · have h0 : (tokenMessages answer).countP (fun m => m.type == WSType.end_) = 0 :=
      List.countP_eq_zero.mpr (fun m hm => by simp [htok m hm])
    simp [successTrace, List.countP_cons, List.countP_append, h0, startMsg, stepMsg, endMsg]
  · have hall : (tokenMessages answer).countP (fun m => m.type == WSType.token)
        = (tokenMessages answer).length :=
      List.countP_eq_length.mpr (fun m hm => by simp [htok m hm])
    simp [successTrace, List.countP_cons, List.countP_append, hall, hlen,
      startMsg, stepMsg, endMsg]
  · have : successTrace sid answer docCount payload
        = (startMsg sid
            :: stepMsg "Understanding your question..." "query_understanding"
            :: stepMsg ("Retrieved " ++ toString docCount ++ " documents") "retrieval"
            :: stepMsg "Generating answer..." "generation"
            :: tokenMessages answer) ++ [endMsg sid payload] := by
      simp [successTrace]
    rw [this]
    exact List.getLast?_concat _

/-- Claim C6, counterexample: when the embedding collaborator fails,
`HyDESearch.search` catches the exception and returns the empty list, and the
orchestration then completes normally with the no-results fallback
(`Except.ok`), instead of surfacing the failure to its caller. -/
theorem hyde_swallows_error_counterexample :
    HyDESearch.search (fun _ => Except.error (CollabError.failure "connection refused"))
        (fun _ _ => Except.ok []) "q" 3 3 = []
    ∧ RAGService.process_query (fun q _ => Except.ok q)
        (fun sq k => HyDESearch.search
          (fun _ => Except.error (CollabError.failure "connection refused"))
          (fun _ _ => Except.ok []) sq k 3)
        (fun _ _ _ => Except.ok "answer") 3 "q" ""
      = Except.ok (⟨fallbackAnswer, [], "q"⟩, 0) :=
  ⟨rfl, rfl⟩

/-- Claim C6, amended: a failure in either query-understanding sub-task
propagates out of the joined engine call, but a failure of the embedding or
corpus collaborator inside `HyDESearch.search` is caught by its
`try/except` and converted into an empty document list, which the
orchestrator then treats as the normal no-results path. -/
theorem collaborator_failure_handling
    (kw hyde : String → String → Except CollabError String)
    (embed : String → Except CollabError (List Rat))
    (execute : List Rat → Nat → Except CollabError (List DocumentRow))
    (question chat_history query : String) (k : Nat) (threshold : Rat)
    (e : CollabError) :
    (isBlank chat_history = false → kw question chat_history = Except.error e →
      QueryUnderstandingEngine.aforwardE kw hyde question chat_history = Except.error e)
    ∧ (∀ s, isBlank chat_history = false → kw question chat_history = Except.ok s →
        hyde question chat_history = Except.error e →
        QueryUnderstandingEngine.aforwardE kw hyde question chat_history = Except.error e)
    ∧ (embed query = Except.error e →
        HyDESearch.search embed execute query k threshold = [])
    ∧ (∀ emb, embed query = Except.ok emb → execute emb (k * 2) = Except.error e →
        HyDESearch.search embed execute query k threshold = []) := by
  refine ⟨?_, ?_, ?_, ?_⟩
  · intro hb hkw
    simp [QueryUnderstandingEngine.aforwardE, hb, hkw]
  · intro s hb hkw hhyde
    simp [QueryUnderstandingEngine.aforwardE, hb, hkw, hhyde]
  · intro hembed
    simp [HyDESearch.search, hembed]
  · intro emb hembed hexec
    simp [HyDESearch.search, hembed, hexec]

/-- Witness for the amended C6: each of the four failure scenarios evaluated
at concrete collaborators. -/
theorem collaborator_failure_handling_witness :
    QueryUnderstandingEngine.aforwardE kwErrW hydeOkW "q" "h" = Except.error errW
    ∧ QueryUnderstandingEngine.aforwardE kwOkW hydeErrW "q" "h" = Except.error errW
    ∧ HyDESearch.search embedErrW executeW "q" 3 3 = []
    ∧ HyDESearch.search embedW executeErrW "q" 3 3 = [] :=
  ⟨(collaborator_failure_handling kwErrW hydeOkW embedW executeW "q" "h" "q" 3 3 errW).1
      (by decide) rfl,
   (collaborator_failure_handling kwOkW hydeErrW embedW executeW "q" "h" "q" 3 3 errW).2.1
      "K" (by decide) rfl rfl,
   (collaborator_failure_handling kwOkW hydeOkW embedErrW executeW "q" "h" "q" 3 3 errW).2.2.1
      rfl,
   (collaborator_failure_handling kwOkW hydeOkW embedW executeErrW "q" "h" "q" 3 3 errW).2.2.2
      [1] rfl rfl⟩

/-- Claim C7, counterexample: two runs failing with different internal
exception texts deliver different frames to the client — the frame is not
independent of the exception detail. -/
theorem error_frame_counterexample :
    errorMsg "ValueError: bad vector" ≠ errorMsg "KeyError: missing" := by
  decide

/-- Claim C7, amended: the content of the error frame is the fixed text
`An error occurred while processing your request: ` followed by the internal
exception's text, so the delivered frame determines — and is determined by —
the exception detail; internal exception text does reach the transport
layer. -/
theorem error_frame_reflects_exception (e1 e2 : String) :
    (errorMsg e1).content = "An error occurred while processing your request: " ++ e1
    ∧ (errorMsg e1 = errorMsg e2 ↔ e1 = e2) := by
  refine ⟨rfl, ?_, fun h => by rw [h]⟩
  intro h
  have hc := congrArg WSMessage.content h
  have hd := congrArg String.data hc
  simp only [errorMsg, errorEventContent, String.data_append] at hd
  exact String.ext (List.append_cancel_left hd)

/-- Claim C9, counterexample: an unparseable inbound frame does not leave the
channel open — it terminates the receive loop and deregisters the channel, so
a subsequent well-formed frame (which alone would be processed) is never
processed. -/
theorem malformed_frame_counterexample :
    runLoop [InboundParse.malformed, InboundParse.message "hi"] = ⟨[], false⟩
    ∧ runLoop [InboundParse.message "hi"] = ⟨["hi"], true⟩ := by
  refine ⟨rfl, rfl⟩

/-- Claim C9, amended: an inbound frame that parses to a JSON object with a
missing or empty `message` field is ignored — the loop continues exactly as
if the frame had not arrived; but a frame that fails JSON parsing (or is not
a JSON object) raises out of the receive loop: the channel is deregistered
and no later frame is processed. A non-empty message is processed and the
loop continues. -/
theorem inbound_frame_handling (fs : List InboundParse) (m : String)
    (hm : m ≠ "") :
    runLoop (InboundParse.message "" :: fs) = runLoop fs
    ∧ runLoop (InboundParse.malformed :: fs) = ⟨[], false⟩
    ∧ runLoop (InboundParse.nonObject :: fs) = ⟨[], false⟩
    ∧ runLoop (InboundParse.message m :: fs)
      = ⟨m :: (runLoop fs).processedMsgs, (runLoop fs).registered⟩ := by
  refine ⟨rfl, rfl, rfl, ?_⟩
  simp [runLoop, handleFrame, hm]

/-- Witness for the amended C9 at a concrete frame sequence. -/
theorem inbound_frame_handling_witness :
    runLoop [InboundParse.message "", InboundParse.message "hello"]
      = runLoop [InboundParse.message "hello"]
    ∧ runLoop [InboundParse.malformed, InboundParse.message "hello"] = ⟨[], false⟩
    ∧ runLoop [InboundParse.nonObject, InboundParse.message "hello"] = ⟨[], false⟩
    ∧ runLoop [InboundParse.message "hello", InboundParse.message "hello"]
      = ⟨"hello" :: (runLoop [InboundParse.message "hello"]).processedMsgs,
          (runLoop [InboundParse.message "hello"]).registered⟩ :=
  inbound_frame_handling [InboundParse.message "hello"] "hello" (by decide)

/-- Claim C10: the two session-store implementations diverge. After appending
`m1W` then `m2W`, a read with `limit = 1` returns the newest message from
`RedisChatMessageHistory` (`RPUSH` + tail `LRANGE`) but the oldest message
from `ChatCache` (`LPUSH` + tail `LRANGE`); with three messages and
`limit = 2`, `ChatCache` also reverses the order. -/
theorem cache_implementations_diverge :
    (RedisChatMessageHistory.get_messages
        (RedisChatMessageHistory.appendAll 3600 emptySession [m1W, m2W]) 1).1 = [m2W]
    ∧ (ChatCache.get_messages (ChatCache.addAll 3600 emptySession [m1W, m2W]) 1).1 = [m1W]
    ∧ (RedisChatMessageHistory.get_messages
        (RedisChatMessageHistory.appendAll 3600 emptySession [m1W, m2W, m3W]) 2).1
      = [m2W, m3W]
    ∧ (ChatCache.get_messages (ChatCache.addAll 3600 emptySession [m1W, m2W, m3W]) 2).1
      = [m2W, m1W]
    ∧ m1W ≠ m2W := by
  refine ⟨rfl, rfl, rfl, rfl, by decide⟩

end ConvAgent
